import Mathlib

/-!
Verification of the UEAgentForge Python client
(`PythonClient/ueagentforge_client.py`) against its design specification.

The development shallowly embeds the client's pure logic:

* JSON values as decoded by `json.loads` are the inductive type `PyVal`
  (numbers are modelled as integers; floating-point literals and the
  non-standard `NaN`/`Infinity` extensions accepted by Python's `json`
  module are outside the model — no verified property depends on them).
* Python dictionaries produced by `json.loads` are association lists
  `List (String × PyVal)` with first-match lookup `jget`.
* The HTTP transport is an oracle `Remote` mapping a command name and
  argument mapping to the outcome of one request attempt; exceptions are
  values of `PyExn` and a client call returns `Except PyExn α` paired with
  the ordered trace of commands issued to the transport.
-/

set_option autoImplicit false

/-- Python values produced by `json.loads` on the client side: `None`,
booleans, numbers, strings, lists and dictionaries. Numbers are modelled
as integers; no claim under verification depends on numeric
representation. -/
inductive PyVal where
  | pynone : PyVal
  | pybool : Bool → PyVal
  | pynum  : Int → PyVal
  | pystr  : String → PyVal
  | pylist : List PyVal → PyVal
  | pydict : List (String × PyVal) → PyVal

/-- First-match lookup in a decoded JSON object, modelling Python's
`dict.get(k)` returning `None` (here `Option.none`) on a missing key. -/
def jget : List (String × PyVal) → String → Option PyVal
  | [], _ => none
  | (k', v) :: rest, k => if k' = k then some v else jget rest k

/-- Python truthiness of a value decoded from JSON, as used by
`not chk.get("allowed", True)` and `if scalar_params:` style tests. -/
def PyVal.truthy : PyVal → Bool
  | .pynone   => false
  | .pybool b => b
  | .pynum n  => n ≠ 0
  | .pystr s  => s ≠ ""
  | .pylist l  => !l.isEmpty
  | .pydict l  => !l.isEmpty

mutual

/-- Python `repr` of a value decoded from JSON (as used when such a value
is interpolated inside a container by an f-string). String escaping is not
modelled. -/
def pyReprJ : PyVal → String
  | .pynone       => "None"
  | .pybool true  => "True"
  | .pybool false => "False"
  | .pynum n      => toString n
  | .pystr s      => "'" ++ s ++ "'"
  | .pylist xs     => "[" ++ pyReprList xs ++ "]"
  | .pydict fs     => "\x7b" ++ pyReprFields fs ++ "\x7d"

/-- Comma-separated `repr` rendering of a decoded JSON array's elements. -/
def pyReprList : List PyVal → String
  | []      => ""
  | [x]     => pyReprJ x
  | x :: xs => pyReprJ x ++ ", " ++ pyReprList xs

/-- Comma-separated `repr` rendering of a decoded JSON object's entries. -/
def pyReprFields : List (String × PyVal) → String
  | []           => ""
  | [(k, v)]     => "'" ++ k ++ "': " ++ pyReprJ v
  | (k, v) :: fs => "'" ++ k ++ "': " ++ pyReprJ v ++ ", " ++ pyReprFields fs

end

/-- Python `str` of a value decoded from JSON, as applied by an f-string:
`str` of a string is the string itself, every other value renders as its
`repr`. -/
def pyStrJ : PyVal → String
  | .pystr s => s
  | v      => pyReprJ v

/-- Parsed response from a Forge command (`ForgeResult` in the source).
`ok` and `error` hold the Python values the constructor stores: `ok` is
either the raw value of the reply's `ok` field, Python `True`, or Python
`False`; `error` is the reply's `error` value or Python `None` (`null`). -/
structure ForgeResult where
  raw   : PyVal
  ok    : PyVal
  error : PyVal

/-- Embeds `ForgeResult.from_response` on a decoded reply mapping:
`error = data.get("error")`; `ok = error is None and data.get("ok", True)`.
Python's `and` yields `False` when `error` is not `None`, and otherwise the
raw value of `data.get("ok", True)`. A key mapped to JSON `null` is
indistinguishable from an absent key under `is None`, exactly as in the
source. -/
def ForgeResult.from_response (fields : List (String × PyVal)) : ForgeResult :=
  let error := (jget fields "error").getD .pynone
  let ok : PyVal :=
    match error with
    | .pynone => (jget fields "ok").getD (.pybool true)
    | _     => .pybool false
  ⟨.pydict fields, ok, error⟩

/-- Embeds the command envelope built by `_send`:
`json.dumps({"cmd": cmd, "args": args or {}})`. Python's `args or {}`
replaces both `None` and an (already-empty) empty mapping by `{}`, which
is `args.getD []` on the model. -/
def mkRequestJson (cmd : String) (args : Option (List (String × PyVal))) :
    List (String × PyVal) :=
  [("cmd", .pystr cmd), ("args", .pydict (args.getD []))]

/-- Opening brace character, kept out of literals. -/
def lbrace : Char := Char.ofNat 123

/-- Closing brace character, kept out of literals. -/
def rbrace : Char := Char.ofNat 125

/-- JSON insignificant whitespace (space, tab, newline, carriage return),
as skipped by Python's `json` decoder. -/
def dropWs : List Char → List Char
  | [] => []
  | c :: rest =>
      if c = ' ' ∨ c = '\t' ∨ c = '\n' ∨ c = '\r' then dropWs rest
      else c :: rest

/-- Escape sequences inside a JSON string literal. `\uXXXX` escapes are
outside the model (no verified property depends on them). -/
def escChar (e : Char) : Option Char :=
  if e = 'n' then some '\n'
  else if e = 't' then some '\t'
  else if e = 'r' then some '\r'
  else if e = 'b' then some (Char.ofNat 8)
  else if e = 'f' then some (Char.ofNat 12)
  else if e = '"' ∨ e = '\\' ∨ e = '/' then some e
  else none

/-- Parses the body of a JSON string literal after the opening quote,
returning the decoded string and the input following the closing quote. -/
def parseStrAux (acc : List Char) : List Char → Option (String × List Char)
  | [] => none
  | c :: rest =>
      if c = '"' then some (String.mk acc.reverse, rest)
      else if c = '\\' then
        match rest with
        | [] => none
        | e :: rest2 =>
            match escChar e with
            | some ec => parseStrAux (ec :: acc) rest2
            | none    => none
      else parseStrAux (c :: acc) rest

/-- Consumes a run of decimal digits, accumulating their value. -/
def parseNatAux (acc : Nat) : List Char → Nat × List Char
  | [] => (acc, [])
  | c :: rest =>
      if c.isDigit then parseNatAux (acc * 10 + (c.toNat - 48)) rest
      else (acc, c :: rest)

/-- Parses a JSON integer literal. Fraction or exponent parts make the
parse fail: floating-point numbers are outside the model. -/
def parseNum : List Char → Option (PyVal × List Char)
  | '-' :: rest =>
      match rest with
      | c :: _ =>
          if c.isDigit then
            let (n, r) := parseNatAux 0 rest
            match r with
            | c2 :: _ => if c2 = '.' ∨ c2 = 'e' ∨ c2 = 'E' then none
                         else some (.pynum (-(n : Int)), r)
            | [] => some (.pynum (-(n : Int)), r)
          else none
      | [] => none
  | s =>
      match s with
      | c :: _ =>
          if c.isDigit then
            let (n, r) := parseNatAux 0 s
            match r with
            | c2 :: _ => if c2 = '.' ∨ c2 = 'e' ∨ c2 = 'E' then none
                         else some (.pynum (n : Int), r)
            | [] => some (.pynum (n : Int), r)
          else none
      | [] => none

mutual

/-- Fuel-indexed recursive-descent parser for one JSON value, modelling
Python's `json.loads` grammar on the fragment the client exchanges. -/
def parseV : Nat → List Char → Option (PyVal × List Char)
  | 0, _ => none
  | Nat.succ fuel, s =>
      match dropWs s with
      | [] => none
      | c :: rest =>
          if c = '"' then
            match parseStrAux [] rest with
            | some (st, r) => some (.pystr st, r)
            | none => none
          else if c = 't' then
            match rest with
            | 'r' :: 'u' :: 'e' :: r => some (.pybool true, r)
            | _ => none
          else if c = 'f' then
            match rest with
            | 'a' :: 'l' :: 's' :: 'e' :: r => some (.pybool false, r)
            | _ => none
          else if c = 'n' then
            match rest with
            | 'u' :: 'l' :: 'l' :: r => some (.pynone, r)
            | _ => none
          else if c = '[' then
            match dropWs rest with
            | [] => none
            | c2 :: r2 =>
                if c2 = ']' then some (.pylist [], r2)
                else
                  match parseElems fuel (c2 :: r2) with
                  | some (xs, r) => some (.pylist xs, r)
                  | none => none
          else if c = lbrace then
            match dropWs rest with
            | [] => none
            | c2 :: r2 =>
                if c2 = rbrace then some (.pydict [], r2)
                else
                  match parseMembers fuel (c2 :: r2) with
                  | some (fs, r) => some (.pydict fs, r)
                  | none => none
          else if c = '-' ∨ c.isDigit then parseNum (c :: rest)
          else none

/-- Parses the comma-separated elements of a non-empty JSON array up to
the closing bracket. -/
def parseElems : Nat → List Char → Option (List PyVal × List Char)
  | 0, _ => none
  | Nat.succ fuel, s =>
      match parseV fuel s with
      | none => none
      | some (v, r) =>
          match dropWs r with
          | [] => none
          | c :: r2 =>
              if c = ',' then
                match parseElems fuel r2 with
                | some (xs, r3) => some (v :: xs, r3)
                | none => none
              else if c = ']' then some ([v], r2)
              else none

/-- Parses the comma-separated members of a non-empty JSON object up to
the closing brace. -/
def parseMembers : Nat → List Char → Option (List (String × PyVal) × List Char)
  | 0, _ => none
  | Nat.succ fuel, s =>
      match dropWs s with
      | [] => none
      | c :: rest =>
          if c = '"' then
            match parseStrAux [] rest with
            | none => none
            | some (k, r) =>
                match dropWs r with
                | ':' :: r2 =>
                    match parseV fuel r2 with
                    | none => none
                    | some (v, r3) =>
                        match dropWs r3 with
                        | [] => none
                        | c2 :: r4 =>
                            if c2 = ',' then
                              match parseMembers fuel r4 with
                              | some (fs, r5) => some ((k, v) :: fs, r5)
                              | none => none
                            else if c2 = rbrace then some ([(k, v)], r4)
                            else none
                | _ => none
          else none

end

/-- Embeds `json.loads`: parses one JSON document and rejects trailing
content, returning `none` where the Python decoder raises
`json.JSONDecodeError`. The fuel `2 * length + 2` dominates the recursion
depth of any parse of the input. -/
def jsonLoads (s : String) : Option PyVal :=
  match parseV (2 * s.length + 2) s.data with
  | some (v, r) => if (dropWs r).isEmpty then some v else none
  | none => none

/-- Embeds the `ReturnValue` coercion of `_send` (lines 130–134): a string
value is passed through `json.loads`, falling back to
`{"raw": original_string}` when it is not valid JSON; a structured value is
returned unchanged. Total by construction — the `try/except` in the source
never lets the decode error escape. -/
def decodeReturn : PyVal → PyVal
  | .pystr s =>
      match jsonLoads s with
      | some v => v
      | none   => .pydict [("raw", .pystr s)]
  | v => v

/-- Embeds lines 127–137 of `_send` on a reply body already parsed from
HTTP: `return_val = body.get("ReturnValue", body)` followed by the string
coercion `decodeReturn`. -/
def decodeBody (body : List (String × PyVal)) : PyVal :=
  decodeReturn ((jget body "ReturnValue").getD (.pydict body))

/-- Claim C6: for every reply whose `ReturnValue` is a JSON-encoded string
containing a valid JSON object, decoding yields exactly the same mapping as
decoding a reply in which that object is delivered unencoded as a
structured mapping (encoding-transparency round-trip). -/
theorem decode_encoding_transparency
    (s : String) (m : List (String × PyVal))
    (body body' : List (String × PyVal))
    (hs : jsonLoads s = some (.pydict m))
    (hb : jget body "ReturnValue" = some (.pystr s))
    (hb' : jget body' "ReturnValue" = some (.pydict m)) :
    decodeBody body = decodeBody body' := by
  simp [decodeBody, hb, hb', decodeReturn, hs]

/-- Witness for C6: the reply `{"ReturnValue": "{\"allowed\": true}"}`
decodes to the same mapping as the reply carrying the structured object
`{"allowed": true}` directly. -/
theorem decode_encoding_transparency_witness :
    decodeBody [("ReturnValue", .pystr "\x7b\"allowed\": true\x7d")] =
    decodeBody [("ReturnValue", .pydict [("allowed", .pybool true)])] :=
  decode_encoding_transparency "\x7b\"allowed\": true\x7d"
    [("allowed", .pybool true)] _ _ rfl rfl rfl

/-- Claim C7: for every reply whose `ReturnValue` is a string that is not
valid JSON, decode returns the mapping `{"raw": original_string}` — and
since `decodeReturn` is a total function mirroring the source's
`try/except`, the decode step never raises to the caller. -/
theorem decode_unparsable_string_becomes_raw
    (s : String) (h : jsonLoads s = none) :
    decodeReturn (.pystr s) = .pydict [("raw", .pystr s)] := by
  simp [decodeReturn, h]

/-- Witness for C7: the non-JSON string `"not json"` decodes to
`{"raw": "not json"}`. -/
theorem decode_unparsable_string_becomes_raw_witness :
    decodeReturn (.pystr "not json") = .pydict [("raw", .pystr "not json")] :=
  decode_unparsable_string_becomes_raw "not json" rfl

/-- Claim C5: for every decoded reply mapping, `error = decoded.get("error")`
and `ok = (error is None) AND decoded.get("ok", true)`: a reply lacking both
`error` and `ok` yields `ok == true` (default-success), and a reply
containing `"error": "X"` yields `ok == false` with `error == "X"` even when
`"ok": true` is also present (error-dominance). -/
theorem result_default_success_and_error_dominance :
    (∀ (d : List (String × PyVal)),
      jget d "error" = none → jget d "ok" = none →
      (ForgeResult.from_response d).ok = .pybool true) ∧
    (∀ (d : List (String × PyVal)) (X : String),
      jget d "error" = some (.pystr X) →
      (ForgeResult.from_response d).ok = .pybool false ∧
      (ForgeResult.from_response d).error = .pystr X) := by
  constructor
  · intro d herr hok
    simp [ForgeResult.from_response, herr, hok]
  · intro d X herr
    simp [ForgeResult.from_response, herr]

/-- Witness for C5: both branches of the derivation rule evaluated on
concrete replies — an empty reply defaults to success, and a reply carrying
both `"error": "boom"` and `"ok": true` is forced to failure. -/
theorem result_default_success_and_error_dominance_witness :
    (ForgeResult.from_response []).ok = .pybool true ∧
    (ForgeResult.from_response [("error", .pystr "boom"), ("ok", .pybool true)]).ok
        = .pybool false ∧
    (ForgeResult.from_response [("error", .pystr "boom"), ("ok", .pybool true)]).error
        = .pystr "boom" := by
  refine ⟨result_default_success_and_error_dominance.1 [] rfl rfl, ?_, ?_⟩
  · exact (result_default_success_and_error_dominance.2
      [("error", .pystr "boom"), ("ok", .pybool true)] "boom" rfl).1
  · exact (result_default_success_and_error_dominance.2
      [("error", .pystr "boom"), ("ok", .pybool true)] "boom" rfl).2

/-- Claim C8: for every command send, the encoded command envelope includes
the argument-mapping field (`"args"`), and it is the empty mapping when the
caller passed none. -/
theorem envelope_always_has_args :
    (∀ (cmd : String) (args : List (String × PyVal)),
      jget (mkRequestJson cmd (some args)) "args" = some (.pydict args)) ∧
    (∀ (cmd : String),
      jget (mkRequestJson cmd none) "args" = some (.pydict [])) := by
  constructor
  · intro cmd args
    simp [mkRequestJson, jget]
  · intro cmd
    simp [mkRequestJson, jget]

/-- Outcome of one HTTP request attempt (`self._session.put` followed by
`raise_for_status`), as observed by `_send`'s `try` block.

Modelled from the spec: the transport library's exception hierarchy is
outside `src/`; per spec §4.2 a per-call timeout expiry is a
`ConnectionError` variant, so the `except requests.exceptions.ConnectionError`
handler in `_send` observes `timeout` exactly as it observes `connError`
(true of the library's connect-phase timeout class). -/
inductive HttpOutcome where
  | ok        : List (String × PyVal) → HttpOutcome
  | connError : HttpOutcome
  | timeout   : HttpOutcome
  | httpError : HttpOutcome

/-- The remote host (plus transport) as an oracle: one outcome per
command name and argument mapping sent. -/
def Remote : Type :=
  String → List (String × PyVal) → HttpOutcome

/-- Python exceptions the embedded client code can raise. -/
inductive PyExn where
  | runtimeError    : String → PyExn
  | httpStatusError : PyExn
  | permissionError : String → PyExn
  | attributeError  : PyExn
  | userExn         : String → PyExn
deriving DecidableEq

/-- One command issued to the transport: the envelope `_send` builds and
puts on the wire. -/
structure Command where
  cmd  : String
  args : List (String × PyVal)

/-- Client construction state (`AgentForgeClient.__init__`): the fields the
embedded logic reads. `timeout` is forwarded to every `put` call. -/
structure Client where
  host    : String := "127.0.0.1"
  port    : Nat    := 30010
  timeout : Nat    := 30
  verify  : Bool   := true

/-- Embeds `self.base_url = f"http://{host}:{port}/remote/object/call"`. -/
def Client.base_url (c : Client) : String :=
  "http://" ++ c.host ++ ":" ++ toString c.port ++ "/remote/object/call"

/-- The message of the error `_send` raises on connection failure. -/
def connFailMsg (c : Client) : String :=
  "Cannot connect to Unreal Editor at " ++ c.base_url ++
  ". Ensure the editor is running with Remote Control API enabled."

/-- Embeds `AgentForgeClient._send`: builds the envelope, attempts the
request (the attempt itself is recorded in the trace), converts connection
failure to the distinguished `RuntimeError`, lets a non-success HTTP status
raise, and decodes the reply body via `decodeBody`. -/
def sendRaw (remote : Remote) (c : Client) (cmd : String)
    (args : Option (List (String × PyVal))) :
    Except PyExn PyVal × List Command :=
  match remote cmd (args.getD []) with
  | .connError => (.error (.runtimeError (connFailMsg c)), [⟨cmd, args.getD []⟩])
  | .timeout   => (.error (.runtimeError (connFailMsg c)), [⟨cmd, args.getD []⟩])
  | .httpError => (.error .httpStatusError, [⟨cmd, args.getD []⟩])
  | .ok body   => (.ok (decodeBody body), [⟨cmd, args.getD []⟩])

/-- Embeds `ForgeResult.from_response` applied to an arbitrary decoded
value: Python's `data.get` raises `AttributeError` unless `data` is a
mapping. -/
def fromResponseChecked (data : PyVal) : Except PyExn ForgeResult :=
  match data with
  | .pydict fields => .ok (ForgeResult.from_response fields)
  | _           => .error .attributeError

/-- Embeds `AgentForgeClient.execute`: `_send` then wrap in `ForgeResult`. -/
def execute (remote : Remote) (c : Client) (cmd : String)
    (args : Option (List (String × PyVal))) :
    Except PyExn ForgeResult × List Command :=
  match sendRaw remote c cmd args with
  | (.ok data, tr)  => (fromResponseChecked data, tr)
  | (.error e, tr)  => (.error e, tr)

/-- Embeds `AgentForgeClient.enforce_constitution`. -/
def enforce_constitution (remote : Remote) (c : Client)
    (action_description : String) : Except PyExn PyVal × List Command :=
  sendRaw remote c "enforce_constitution"
    (some [("action_description", .pystr action_description)])

/-- The argument mapping `spawn_actor` sends. Coordinate and rotation
values are modelled as integers (the claims are independent of numeric
payloads). -/
def spawnArgs (class_path : String) (x y z pitch yaw roll : Int) :
    List (String × PyVal) :=
  [("class_path", .pystr class_path),
   ("x", .pynum x), ("y", .pynum y), ("z", .pynum z),
   ("pitch", .pynum pitch), ("yaw", .pynum yaw), ("roll", .pynum roll)]

/-- Embeds `AgentForgeClient.spawn_actor` (lines 187–203): when
`self.verify` is set, first round-trips `enforce_constitution` with the
description `"spawn_actor " + class_path`; raises `PermissionError`
carrying the violations when `not chk.get("allowed", True)`; otherwise (or
when `verify` is off) executes the mutating `spawn_actor` command. -/
def spawn_actor (remote : Remote) (c : Client) (class_path : String)
    (x y z pitch yaw roll : Int) :
    Except PyExn ForgeResult × List Command :=
  if c.verify then
    match enforce_constitution remote c ("spawn_actor " ++ class_path) with
    | (.error e, tr) => (.error e, tr)
    | (.ok chk, tr) =>
        match chk with
        | .pydict fields =>
            if ((jget fields "allowed").getD (.pybool true)).truthy then
              let (r, tr2) := execute remote c "spawn_actor"
                (some (spawnArgs class_path x y z pitch yaw roll))
              (r, tr ++ tr2)
            else
              (.error (.permissionError
                ("Constitution blocked spawn_actor: " ++
                  pyStrJ ((jget fields "violations").getD .pynone))), tr)
        | _ => (.error .attributeError, tr)
  else
    execute remote c "spawn_actor"
      (some (spawnArgs class_path x y z pitch yaw roll))

/-- Embeds `AgentForgeClient.set_actor_transform` (lines 205–215): a
direct `execute` with no gate check and no test of `self.verify`. -/
def set_actor_transform (remote : Remote) (c : Client) (object_path : String)
    (x y z pitch yaw roll : Int) :
    Except PyExn ForgeResult × List Command :=
  execute remote c "set_actor_transform"
    (some [("object_path", .pystr object_path),
           ("x", .pynum x), ("y", .pynum y), ("z", .pynum z),
           ("pitch", .pynum pitch), ("yaw", .pynum yaw), ("roll", .pynum roll)])

/-- Embeds `AgentForgeClient.delete_actor` (lines 217–218): a direct
`execute` with no gate check and no test of `self.verify`. -/
def delete_actor (remote : Remote) (c : Client) (label : String) :
    Except PyExn ForgeResult × List Command :=
  execute remote c "delete_actor" (some [("label", .pystr label)])

/-- Embeds `AgentForgeClient.begin_transaction`. -/
def begin_transaction (remote : Remote) (c : Client) (label : String) :
    Except PyExn ForgeResult × List Command :=
  execute remote c "begin_transaction" (some [("label", .pystr label)])

/-- Embeds `AgentForgeClient.end_transaction`. -/
def end_transaction (remote : Remote) (c : Client) :
    Except PyExn ForgeResult × List Command :=
  execute remote c "end_transaction" none

/-- Embeds `AgentForgeClient.undo_transaction`. -/
def undo_transaction (remote : Remote) (c : Client) :
    Except PyExn ForgeResult × List Command :=
  execute remote c "undo_transaction" none

/-- Embeds `with client.transaction(label): body` under Python's
`with`-statement semantics over `_TransactionContext`:

* `__enter__` calls `begin_transaction`; if it raises, the exception
  propagates and neither the body nor `__exit__` runs (its returned
  `ForgeResult` — even an error reply — is otherwise ignored);
* the body is an arbitrary computation given by its outcome and the
  commands it issued;
* `__exit__` sends `undo_transaction` when the body raised, re-raising the
  original exception (`return False`) unless the undo call itself raises,
  in which case Python propagates that exception instead; on a normal body
  it sends `end_transaction`, whose own exception, if any, propagates. -/
def withTransaction (remote : Remote) (c : Client) (label : String)
    (body : Except PyExn Unit × List Command) :
    Except PyExn Unit × List Command :=
  match begin_transaction remote c label with
  | (.error e, tr) => (.error e, tr)
  | (.ok _, tr0) =>
      match body with
      | (.ok _, trB) =>
          match end_transaction remote c with
          | (.ok _, trE)    => (.ok (), tr0 ++ trB ++ trE)
          | (.error e, trE) => (.error e, tr0 ++ trB ++ trE)
      | (.error e, trB) =>
          match undo_transaction remote c with
          | (.ok _, trU)     => (.error e, tr0 ++ trB ++ trU)
          | (.error e2, trU) => (.error e2, tr0 ++ trB ++ trU)

/-- Number of commands with the given name in a transport trace. -/
def countCmd (tr : List Command) (name : String) : Nat :=
  (tr.filter (fun cmd => cmd.cmd = name)).length

/-- The trace of any `execute` call is exactly the one command it puts on
the wire, whatever the transport outcome. -/
theorem execute_trace (remote : Remote) (c : Client) (cmd : String)
    (args : Option (List (String × PyVal))) :
    (execute remote c cmd args).2 = [⟨cmd, args.getD []⟩] := by
  simp only [execute, sendRaw]
  cases h : remote cmd (args.getD []) <;> simp [h]

/-- The trace of any `enforce_constitution` call is exactly the gate
command, whatever the transport outcome. -/
theorem enforce_trace (remote : Remote) (c : Client) (d : String) :
    (enforce_constitution remote c d).2 =
      [⟨"enforce_constitution", [("action_description", .pystr d)]⟩] := by
  simp only [enforce_constitution, sendRaw]
  cases h : remote "enforce_constitution" [("action_description", .pystr d)] <;>
    simp [h]

/-- Splitting the command count over a trace concatenation. -/
theorem countCmd_append (t1 t2 : List Command) (name : String) :
    countCmd (t1 ++ t2) name = countCmd t1 name + countCmd t2 name := by
  simp [countCmd, List.filter_append]

/-- A transport oracle whose every reply is the success body `{"ok": true}`. -/
def remoteAllOk : Remote := fun _ _ => .ok [("ok", .pybool true)]

/-- Claim C1: the client's own contract (class docstring: `verify=True`
runs verification "before any mutating command") and the spec require every
mutating operation to run the Policy Gate's check-then-act when `verify` is
enabled; the code gates only `spawn_actor`. Evaluated at the failing input:
`set_actor_transform` on a `verify=True` client issues the mutating command
directly, with zero `enforce_constitution` checks. -/
theorem set_actor_transform_bypasses_gate :
    countCmd (set_actor_transform remoteAllOk { verify := true } "/Game/Cube"
        1 2 3 0 0 0).2 "enforce_constitution" = 0 ∧
    (set_actor_transform remoteAllOk { verify := true } "/Game/Cube"
        1 2 3 0 0 0).2 =
      [⟨"set_actor_transform",
        [("object_path", .pystr "/Game/Cube"),
         ("x", .pynum 1), ("y", .pynum 2), ("z", .pynum 3),
         ("pitch", .pynum 0), ("yaw", .pynum 0), ("roll", .pynum 0)]⟩] := by
  exact ⟨rfl, rfl⟩

/-- Claim C2: for the policy-gated mutating operation (`spawn_actor`, with
`verify` enabled), a gate reply carrying `allowed == false` makes the
operation fail with `PermissionError` carrying the violation list, and the
mutating `spawn_actor` command is never sent to the transport: the trace
holds the gate check alone. -/
theorem spawn_gate_denied
    (remote : Remote) (c : Client) (class_path : String)
    (x y z pitch yaw roll : Int) (fields : List (String × PyVal))
    (hv : c.verify = true)
    (hgate : (enforce_constitution remote c
        ("spawn_actor " ++ class_path)).1 = .ok (.pydict fields))
    (hallowed : jget fields "allowed" = some (.pybool false)) :
    (spawn_actor remote c class_path x y z pitch yaw roll).1 =
      .error (.permissionError ("Constitution blocked spawn_actor: " ++
        pyStrJ ((jget fields "violations").getD .pynone))) ∧
    (spawn_actor remote c class_path x y z pitch yaw roll).2 =
      [⟨"enforce_constitution",
        [("action_description", .pystr ("spawn_actor " ++ class_path))]⟩] ∧
    countCmd (spawn_actor remote c class_path x y z pitch yaw roll).2
      "spawn_actor" = 0 := by
  have htr := enforce_trace remote c ("spawn_actor " ++ class_path)
  rcases hec : enforce_constitution remote c ("spawn_actor " ++ class_path)
    with ⟨res, tr⟩
  rw [hec] at hgate htr
  simp only at hgate htr
  subst hgate htr
  simp [spawn_actor, hv, hec, hallowed, countCmd, PyVal.truthy]

/-- A transport oracle denying every gate check with one violation and
answering `{"ok": true}` elsewhere. -/
def remoteDeny : Remote := fun cmd _ =>
  if cmd = "enforce_constitution" then
    .ok [("ReturnValue",
      .pydict [("allowed", .pybool false), ("violations", .pylist [.pystr "no spawning"])])]
  else .ok [("ok", .pybool true)]

/-- Witness for C2: against `remoteDeny`, a verified spawn raises
`PermissionError` listing the violation and the trace holds only the gate
check. -/
theorem spawn_gate_denied_witness :
    (spawn_actor remoteDeny { verify := true }
        "/Script/Engine.StaticMeshActor" 0 0 0 100 0 0).1 =
      .error (.permissionError
        "Constitution blocked spawn_actor: ['no spawning']") ∧
    (spawn_actor remoteDeny { verify := true }
        "/Script/Engine.StaticMeshActor" 0 0 0 100 0 0).2 =
      [⟨"enforce_constitution",
        [("action_description",
          .pystr "spawn_actor /Script/Engine.StaticMeshActor")]⟩] ∧
    countCmd (spawn_actor remoteDeny { verify := true }
        "/Script/Engine.StaticMeshActor" 0 0 0 100 0 0).2 "spawn_actor" = 0 :=
  spawn_gate_denied remoteDeny { verify := true }
    "/Script/Engine.StaticMeshActor" 0 0 0 100 0 0
    [("allowed", .pybool false), ("violations", .pylist [.pystr "no spawning"])]
    rfl rfl rfl

/-- Claim C10: with `verify` enabled, a gate reply that decodes to a
mapping lacking the `allowed` field entirely is treated as permission
(`chk.get("allowed", True)` defaults to `True`): `spawn_actor` proceeds to
send the mutating spawn command right after the gate check, returning
whatever the mutating execute returns. -/
theorem spawn_missing_allowed_fails_open
    (remote : Remote) (c : Client) (class_path : String)
    (x y z pitch yaw roll : Int) (fields : List (String × PyVal))
    (hv : c.verify = true)
    (hgate : (enforce_constitution remote c
        ("spawn_actor " ++ class_path)).1 = .ok (.pydict fields))
    (hmissing : jget fields "allowed" = none) :
    (spawn_actor remote c class_path x y z pitch yaw roll).2 =
      [⟨"enforce_constitution",
        [("action_description", .pystr ("spawn_actor " ++ class_path))]⟩,
       ⟨"spawn_actor", spawnArgs class_path x y z pitch yaw roll⟩] ∧
    (spawn_actor remote c class_path x y z pitch yaw roll).1 =
      (execute remote c "spawn_actor"
        (some (spawnArgs class_path x y z pitch yaw roll))).1 := by
  have htr := enforce_trace remote c ("spawn_actor " ++ class_path)
  have hex := execute_trace remote c "spawn_actor"
    (some (spawnArgs class_path x y z pitch yaw roll))
  rcases hec : enforce_constitution remote c ("spawn_actor " ++ class_path)
    with ⟨res, tr⟩
  rw [hec] at hgate htr
  simp only at hgate htr
  subst hgate htr
  rcases hxx : execute remote c "spawn_actor"
      (some (spawnArgs class_path x y z pitch yaw roll)) with ⟨res2, tr2⟩
  rw [hxx] at hex
  simp only at hex
  subst hex
  simp [spawn_actor, hv, hec, hmissing, hxx, PyVal.truthy]

/-- A transport oracle whose gate replies carry no `allowed` field. -/
def remoteNoAllowed : Remote := fun cmd _ =>
  if cmd = "enforce_constitution" then .ok [("checked", .pybool true)]
  else .ok [("ok", .pybool true), ("spawned_name", .pystr "A_1")]

/-- Witness for C10: against `remoteNoAllowed`, a verified spawn sends the
gate check and then the mutating spawn command. -/
theorem spawn_missing_allowed_fails_open_witness :
    (spawn_actor remoteNoAllowed { verify := true }
        "/Script/Engine.PointLight" 0 0 0 0 0 0).2 =
      [⟨"enforce_constitution",
        [("action_description", .pystr "spawn_actor /Script/Engine.PointLight")]⟩,
       ⟨"spawn_actor", spawnArgs "/Script/Engine.PointLight" 0 0 0 0 0 0⟩] ∧
    (spawn_actor remoteNoAllowed { verify := true }
        "/Script/Engine.PointLight" 0 0 0 0 0 0).1 =
      (execute remoteNoAllowed { verify := true } "spawn_actor"
        (some (spawnArgs "/Script/Engine.PointLight" 0 0 0 0 0 0))).1 :=
  spawn_missing_allowed_fails_open remoteNoAllowed { verify := true }
    "/Script/Engine.PointLight" 0 0 0 0 0 0 [("checked", .pybool true)]
    rfl rfl rfl

/-- Claim C9: whenever the underlying connection cannot be established —
and likewise when the per-call timeout expires, a `ConnectionError`
variant per spec §4.2 — `_send` fails with the distinguished
connection-failure error, whose message names the target (the client's
base URL, carrying host and port) and instructs the caller to ensure the
editor is running and reachable. -/
theorem send_connection_failure
    (remote : Remote) (c : Client) (cmd : String)
    (args : Option (List (String × PyVal))) :
    (remote cmd (args.getD []) = .connError →
      (sendRaw remote c cmd args).1 = .error (.runtimeError (connFailMsg c))) ∧
    (remote cmd (args.getD []) = .timeout →
      (sendRaw remote c cmd args).1 = .error (.runtimeError (connFailMsg c))) ∧
    connFailMsg c =
      "Cannot connect to Unreal Editor at " ++
        ("http://" ++ c.host ++ ":" ++ toString c.port ++
          "/remote/object/call") ++
        ". Ensure the editor is running with Remote Control API enabled." := by
  refine ⟨fun h => ?_, fun h => ?_, rfl⟩ <;> simp [sendRaw, h]

/-- A transport oracle on which every connection attempt is refused. -/
def remoteConnRefused : Remote := fun _ _ => .connError

/-- A transport oracle on which every request attempt times out. -/
def remoteTimesOut : Remote := fun _ _ => .timeout

/-- Witness for C9: against a refused connection and against a timeout, a
default client's `ping` send raises the connection-failure error with the
exact message naming `http://127.0.0.1:30010/remote/object/call`. -/
theorem send_connection_failure_witness :
    (sendRaw remoteConnRefused {} "ping" none).1 =
      .error (.runtimeError
        ("Cannot connect to Unreal Editor at http://127.0.0.1:30010/remote/object/call. " ++
         "Ensure the editor is running with Remote Control API enabled.")) ∧
    (sendRaw remoteTimesOut {} "ping" none).1 =
      .error (.runtimeError
        ("Cannot connect to Unreal Editor at http://127.0.0.1:30010/remote/object/call. " ++
         "Ensure the editor is running with Remote Control API enabled.")) := by
  constructor
  · have h := (send_connection_failure remoteConnRefused {} "ping" none).1 rfl
    rw [h]
    rfl
  · have h := (send_connection_failure remoteTimesOut {} "ping" none).2.1 rfl
    rw [h]
    rfl

/-- The trace of any `begin_transaction` call is exactly the begin
command, whatever the transport outcome. -/
theorem begin_trace (remote : Remote) (c : Client) (label : String) :
    (begin_transaction remote c label).2 =
      [⟨"begin_transaction", [("label", .pystr label)]⟩] := by
  simpa [begin_transaction] using
    execute_trace remote c "begin_transaction" (some [("label", .pystr label)])

/-- Claim C4: if `begin_transaction` itself raises when entering a
transaction scope, Python's `with` statement never invokes `__exit__`, so
the scope is treated as never opened: the trace holds the begin attempt
alone and no `end_transaction` or `undo_transaction` is attempted. -/
theorem begin_failure_skips_exit
    (remote : Remote) (c : Client) (label : String)
    (body : Except PyExn Unit × List Command) (e : PyExn)
    (hb : (begin_transaction remote c label).1 = .error e) :
    withTransaction remote c label body =
      (.error e, [⟨"begin_transaction", [("label", .pystr label)]⟩]) ∧
    countCmd (withTransaction remote c label body).2 "end_transaction" = 0 ∧
    countCmd (withTransaction remote c label body).2 "undo_transaction" = 0 := by
  have htr := begin_trace remote c label
  rcases hbb : begin_transaction remote c label with ⟨res, tr⟩
  rw [hbb] at hb htr
  simp only at hb htr
  subst hb htr
  simp [withTransaction, hbb, countCmd]

/-- Witness for C4: against a refused connection, entering a scope raises
the connection error and sends nothing besides the begin attempt. -/
theorem begin_failure_skips_exit_witness :
    withTransaction remoteConnRefused {} "Edit" (.ok (), []) =
      (.error (.runtimeError (connFailMsg {})),
       [⟨"begin_transaction", [("label", .pystr "Edit")]⟩]) ∧
    countCmd (withTransaction remoteConnRefused {} "Edit" (.ok (), [])).2
      "end_transaction" = 0 ∧
    countCmd (withTransaction remoteConnRefused {} "Edit" (.ok (), [])).2
      "undo_transaction" = 0 :=
  begin_failure_skips_exit remoteConnRefused {} "Edit" (.ok (), [])
    (.runtimeError (connFailMsg {})) rfl

/-- The trace of any `end_transaction` call is exactly the end command. -/
theorem end_trace (remote : Remote) (c : Client) :
    (end_transaction remote c).2 = [⟨"end_transaction", []⟩] := by
  simpa [end_transaction] using execute_trace remote c "end_transaction" none

/-- The trace of any `undo_transaction` call is exactly the undo command. -/
theorem undo_trace (remote : Remote) (c : Client) :
    (undo_transaction remote c).2 = [⟨"undo_transaction", []⟩] := by
  simpa [undo_transaction] using execute_trace remote c "undo_transaction" none

/-- A transport oracle on which only `undo_transaction` hits a connection
failure; every other command succeeds. -/
def remoteUndoFails : Remote := fun cmd _ =>
  if cmd = "undo_transaction" then .connError else .ok [("ok", .pybool true)]

/-- Counterexample to C3 as stated: a scope whose body raises sends
`undo_transaction` (and no `end_transaction`) — but when the undo call
itself raises (here: the connection dies before the rollback round-trip
completes), `__exit__` propagates that new exception, so the triggering
exception is NOT re-raised to the caller unchanged. -/
theorem transaction_reraise_counterexample :
    countCmd (withTransaction remoteUndoFails {} "Edit"
        (.error (.userExn "boom"), [])).2 "undo_transaction" = 1 ∧
    countCmd (withTransaction remoteUndoFails {} "Edit"
        (.error (.userExn "boom"), [])).2 "end_transaction" = 0 ∧
    (withTransaction remoteUndoFails {} "Edit"
        (.error (.userExn "boom"), [])).1 =
      .error (.runtimeError (connFailMsg {})) ∧
    (withTransaction remoteUndoFails {} "Edit"
        (.error (.userExn "boom"), [])).1 ≠ .error (.userExn "boom") := by
  refine ⟨rfl, rfl, rfl, ?_⟩
  intro h
  rw [show (withTransaction remoteUndoFails {} "Edit"
      (.error (.userExn "boom"), [])).1 =
    .error (.runtimeError (connFailMsg {})) from rfl] at h
  simp at h

/-- Claim C3 (amended): once the scope has been entered, exactly one of
`end_transaction` or `undo_transaction` is sent on scope exit, for any
body (itself sending neither of those two commands): a raising body leads
to exactly one `undo_transaction` and no `end_transaction`, and — provided
the undo call itself returns without raising — the triggering exception is
re-raised to the caller unchanged (never swallowed); a body that completes
without raising leads to exactly one `end_transaction` and no
`undo_transaction`. -/
theorem transaction_scope_exit
    (remote : Remote) (c : Client) (label : String)
    (bodyOut : Except PyExn Unit) (bodyTr : List Command) (r : ForgeResult)
    (hb : (begin_transaction remote c label).1 = .ok r)
    (hcleanE : countCmd bodyTr "end_transaction" = 0)
    (hcleanU : countCmd bodyTr "undo_transaction" = 0) :
    (∀ e : PyExn, bodyOut = .error e →
      countCmd (withTransaction remote c label (bodyOut, bodyTr)).2
        "undo_transaction" = 1 ∧
      countCmd (withTransaction remote c label (bodyOut, bodyTr)).2
        "end_transaction" = 0 ∧
      (∀ r2 : ForgeResult, (undo_transaction remote c).1 = .ok r2 →
        (withTransaction remote c label (bodyOut, bodyTr)).1 = .error e)) ∧
    (bodyOut = .ok () →
      countCmd (withTransaction remote c label (bodyOut, bodyTr)).2
        "end_transaction" = 1 ∧
      countCmd (withTransaction remote c label (bodyOut, bodyTr)).2
        "undo_transaction" = 0) := by
  have htr := begin_trace remote c label
  rcases hbb : begin_transaction remote c label with ⟨res, tr0⟩
  rw [hbb] at hb htr
  simp only at hb htr
  subst hb htr
  simp only [countCmd] at hcleanE hcleanU
  constructor
  · intro e he
    subst he
    have htrU := undo_trace remote c
    rcases huu : undo_transaction remote c with ⟨ur, trU⟩
    rw [huu] at htrU
    simp only at htrU
    subst htrU
    cases ur with
    | ok r2 =>
        refine ⟨?_, ?_, ?_⟩
        · simp [withTransaction, hbb, huu, countCmd_append, hcleanU, countCmd]
        · simp [withTransaction, hbb, huu, countCmd_append, hcleanE, countCmd]
        · intro r3 _
          simp [withTransaction, hbb, huu]
    | error e2 =>
        refine ⟨?_, ?_, ?_⟩
        · simp [withTransaction, hbb, huu, countCmd_append, hcleanU, countCmd]
        · simp [withTransaction, hbb, huu, countCmd_append, hcleanE, countCmd]
        · intro r3 hr3
          simp at hr3
  · intro he
    subst he
    have htrE := end_trace remote c
    rcases hee : end_transaction remote c with ⟨er, trE⟩
    rw [hee] at htrE
    simp only at htrE
    subst htrE
    cases er <;>
      refine ⟨?_, ?_⟩ <;>
        simp [withTransaction, hbb, hee, countCmd_append, hcleanE, hcleanU,
          countCmd]

/-- Witness for C3 (amended): against `remoteAllOk`, a raising body yields
exactly one rollback and the original exception, and a normal body yields
exactly one commit. -/
theorem transaction_scope_exit_witness :
    countCmd (withTransaction remoteAllOk {} "Edit"
        (.error (.userExn "boom"), [])).2 "undo_transaction" = 1 ∧
    countCmd (withTransaction remoteAllOk {} "Edit"
        (.error (.userExn "boom"), [])).2 "end_transaction" = 0 ∧
    (withTransaction remoteAllOk {} "Edit"
        (.error (.userExn "boom"), [])).1 = .error (.userExn "boom") ∧
    countCmd (withTransaction remoteAllOk {} "Edit"
        (.ok (), [])).2 "end_transaction" = 1 ∧
    countCmd (withTransaction remoteAllOk {} "Edit"
        (.ok (), [])).2 "undo_transaction" = 0 := by
  have h1 := transaction_scope_exit remoteAllOk {} "Edit"
    (.error (.userExn "boom")) [] (ForgeResult.from_response [("ok", .pybool true)])
    rfl rfl rfl
  have h2 := transaction_scope_exit remoteAllOk {} "Edit"
    (.ok ()) [] (ForgeResult.from_response [("ok", .pybool true)]) rfl rfl rfl
  obtain ⟨c1, c2, c3⟩ := h1.1 (.userExn "boom") rfl
  obtain ⟨e1, e2⟩ := h2.2 rfl
  exact ⟨c1, c2, c3 (ForgeResult.from_response [("ok", .pybool true)]) rfl, e1, e2⟩
